import Mathlib

/-!
Verification of the scan-session state machine of the ticket-gate check-in
client (pages/ScannerPage.tsx, components/ScannerComponent.tsx,
services/api.ts, types.ts).

JS strings are modelled as lists of Unicode code points (`CodePoints`), so
that `trim`, `toUpperCase` and the `[0-9A-Z]` character-class tests of the
source become pure arithmetic on `Nat`.  React `useState` state is modelled
as a record `PageState`; each event handler of the page is a pure function
from the current state (and the event payload) to the next state together
with the `scanTicket` request it issues, if any.  The asynchronous
`processValidation` is split at its single await point into
`startValidation` (the synchronous prefix that sets the in-flight flag and
issues the request) and `settleValidation` (the continuation that consumes
the service outcome, including the catch and finally blocks).
-/

namespace HybridApp

/-- JS string, as the list of its code points. -/
abbrev CodePoints := List Nat

/-- Code points of a Lean string literal, for concrete test inputs. -/
def cps (s : String) : CodePoints := s.data.map Char.toNat

/-- The white-space code points removed by JavaScript `String.prototype.trim`:
TAB, LF, VT, FF, CR, SP, NBSP, OGHAM SP, EN QUAD .. HAIR SP, LS, PS,
NNBSP, MMSP, IDEOGRAPHIC SP, BOM. -/
def wsCodes : List Nat :=
  [9, 10, 11, 12, 13, 32, 160, 5760, 8192, 8193, 8194, 8195, 8196, 8197,
   8198, 8199, 8200, 8201, 8202, 8232, 8233, 8239, 8287, 12288, 65279]

/-- Is this code point JS trim white space? -/
def isWs (n : Nat) : Bool := decide (n ∈ wsCodes)

/-- `String.prototype.toUpperCase`, per code point (ASCII range; the
inputs of interest are ASCII ticket codes). -/
def upCp (n : Nat) : Nat := if 97 ≤ n ∧ n ≤ 122 then n - 32 else n

/-- `String.prototype.trim`: drop white space from both ends. -/
def trimCp (l : CodePoints) : CodePoints := (l.dropWhile isWs).rdropWhile isWs

/-- `code.trim().toUpperCase()` — the normalization applied by
`handleScan` (line 75) and `handleManualSubmit` (line 99). -/
def normalize (l : CodePoints) : CodePoints := (trimCp l).map upCp

/-- One code point of the case-insensitive class `[0-9A-Z]` under the `i`
flag, i.e. `[0-9A-Za-z]`. -/
def isAlnumCI (n : Nat) : Bool :=
  decide ((48 ≤ n ∧ n ≤ 57) ∨ (65 ≤ n ∧ n ≤ 90) ∨ (97 ≤ n ∧ n ≤ 122))

/-- Full match of `/^[0-9A-Z]+$/i` against the string. -/
def alnumTest (l : CodePoints) : Bool := !l.isEmpty && l.all isAlnumCI

/-- `validateCode` (ScannerPage.tsx lines 46-49):
`code.length === 10 && alphanumeric.test(code)`. -/
def validateCode (l : CodePoints) : Bool := l.length == 10 && alnumTest l

/-- One code point of the class `[0-9A-Z]` (no `i` flag). -/
def isUpAlnum (n : Nat) : Bool := decide ((48 ≤ n ∧ n ≤ 57) ∨ (65 ≤ n ∧ n ≤ 90))

/-- Modelled from the spec: full match of the ScanCode format regex,
ten characters drawn from `[0-9A-Z]`.  Used only to compare the `validateCode` of the code
against the format of the spec. -/
def specFormat (l : CodePoints) : Bool := l.length == 10 && l.all isUpAlnum

/-- `Ticket` (types.ts); the optional seat fields are irrelevant here. -/
structure Ticket where
  eventName : String
  passType : String
  holderName : String
  status : String
  scannedAt : String
deriving DecidableEq

/-- `ApiResponse<Ticket>` (types.ts) as consumed by `processValidation`. -/
structure ApiResponse where
  success : Bool
  message : Option String
  error : Option String
  ticket : Option Ticket
deriving DecidableEq

/-- Outcome of the awaited `apiService.scanTicket` call: a parsed response,
or a rejected promise (network/transport failure), which the `catch`
block receives. -/
inductive ScanOutcome where
  | ok : ApiResponse → ScanOutcome
  | networkError : ScanOutcome
deriving DecidableEq

/-- The `useState` variables of `ScannerPage` that drive the scan-session
state machine (`event` is reduced to the `event.id` the request needs). -/
structure PageState where
  eventId : Option String
  isProcessing : Bool
  lastScannedCode : Option CodePoints
  cooldown : Bool
  successTicket : Option Ticket
  errorMessage : Option String
deriving DecidableEq

/-- A `scanTicket(eventId, code)` request issued to the Validation
Service (api.ts). -/
abbrev ScanCall := String × CodePoints

/-- Error text set by `handleScan` for a malformed code (line 81). -/
def msgInvalidFormat : String := "Invalid code format. Must be 10 characters."

/-- Error text set by the `catch` block (line 68). -/
def msgNetwork : String := "Network error validating ticket."

/-- Generic fallback of the error chain (line 65). -/
def msgGenericFail : String := "Ticket validation failed."

/-- JS `a || d` for an optional string `a`: an absent or empty string is
falsy and falls through to `d`. -/
def jsOrStr (o : Option String) (d : String) : String :=
  match o with
  | some s => if s = "" then d else s
  | none => d

/-- `response.error || response.message || "Ticket validation failed."`
(line 65). -/
def failureReason (r : ApiResponse) : String :=
  jsOrStr r.error (jsOrStr r.message msgGenericFail)

/-- The synchronous prefix of `processValidation` (lines 51-58 and the
dispatch of the request on line 60): bail out when no event is loaded,
otherwise set the in-flight flag, clear both result banners, record the
code as last scanned, and issue the `scanTicket` request. -/
def startValidation (s : PageState) (code : CodePoints) : PageState × Option ScanCall :=
  match s.eventId with
  | none => (s, none)
  | some eid =>
      ({ s with
          isProcessing := true
          errorMessage := none
          successTicket := none
          lastScannedCode := some code },
        some (eid, code))

/-- `startCooldown` (lines 88-95), at the moment it is invoked: the
cooldown flag goes up and the 5-second timer is (re)armed.  The timer
firing is the separate event `cooldownExpire`. -/
def startCooldown (s : PageState) : PageState := { s with cooldown := true }

/-- The continuation of `processValidation` after the await (lines 59-71):
the `then`/`else` on the parsed response, the `catch` for a transport
failure, and the `finally` that clears the in-flight flag on every path. -/
def settleValidation (s : PageState) (o : ScanOutcome) : PageState :=
  match o with
  | ScanOutcome.ok r =>
      if r.success && r.ticket.isSome then
        { startCooldown { s with successTicket := r.ticket } with isProcessing := false }
      else
        { s with errorMessage := some (failureReason r), isProcessing := false }
  | ScanOutcome.networkError =>
      { s with errorMessage := some msgNetwork, isProcessing := false }

/-- The 5-second cooldown timer firing (lines 91-94). -/
def cooldownExpire (s : PageState) : PageState :=
  { s with cooldown := false, lastScannedCode := none }

/-- `handleScan` (lines 74-86), the camera-decode handler: normalize, drop
the event while processing or cooling down, drop a repeat of the last
scanned code, reject a malformed code with an error banner, otherwise
validate. -/
def handleScan (s : PageState) (raw : CodePoints) : PageState × Option ScanCall :=
  if s.isProcessing || s.cooldown then (s, none)
  else if s.lastScannedCode = some (normalize raw) then (s, none)
  else if validateCode (normalize raw) = false then
    ({ s with errorMessage := some msgInvalidFormat }, none)
  else startValidation s (normalize raw)

/-- `handleManualSubmit` (lines 97-102), the form-submit handler: its only
guard is that the cleaned code has exactly 10 characters. -/
def handleManualSubmit (s : PageState) (rawInput : CodePoints) : PageState × Option ScanCall :=
  if (normalize rawInput).length ≠ 10 then (s, none)
  else startValidation s (normalize rawInput)

/-- Page state combined with the camera capability of `ScannerComponent`:
`cameraActive` is its `isScanning` flag, true while the html5-qrcode
session is running. -/
structure SysState where
  page : PageState
  cameraActive : Bool
deriving DecidableEq

/-- `startScanning` (ScannerComponent.tsx lines 57-86), run on mount with
the remembered camera or on camera selection. -/
def sysStartScanning (sys : SysState) : SysState := { sys with cameraActive := true }

/-- `stopScanning` (lines 88-97), run on unmount or on a camera switch —
the only places the capability is stopped. -/
def sysStopScanning (sys : SysState) : SysState := { sys with cameraActive := false }

/-- The `disabled` prop `ScannerPage` passes to `ScannerComponent`
(ScannerPage.tsx line 160). -/
def scannerDisabled (p : PageState) : Bool := p.isProcessing || p.cooldown

/-- Delivery of one decoded frame: the decode callback (ScannerComponent
lines 70-74) fires only while the session runs, forwards to `onScan` only
when not `disabled`, and `handleScan` then processes it. -/
def sysDecode (sys : SysState) (raw : CodePoints) : SysState × Option ScanCall :=
  if sys.cameraActive = false then (sys, none)
  else if scannerDisabled sys.page then (sys, none)
  else
    ({ sys with page := (handleScan sys.page raw).1 }, (handleScan sys.page raw).2)

/-- The validation outcome settling while the combined system runs: only
the page state reacts; nothing stops or starts the camera session. -/
def sysSettle (sys : SysState) (o : ScanOutcome) : SysState :=
  { sys with page := settleValidation sys.page o }

/-- Page state right after the event is loaded: no request in flight, no
cooldown, nothing scanned, no banners. -/
def idlePage : PageState :=
  { eventId := some "ev1"
    isProcessing := false
    lastScannedCode := none
    cooldown := false
    successTicket := none
    errorMessage := none }

/-- A concrete ticket payload for counterexample traces. -/
def sampleTicket : Ticket :=
  { eventName := "Launch Night"
    passType := "GA"
    holderName := "A. Attendee"
    status := "valid"
    scannedAt := "2026-01-01T00:00:00Z" }

/-- Concrete state right after a successful validation: success banner up,
cooldown running, camera session still on. -/
def successSys : SysState :=
  { page := { idlePage with cooldown := true, successTicket := some sampleTicket }
    cameraActive := true }

/-- Concrete state with the camera session not running. -/
def cameraOffSys : SysState := { page := idlePage, cameraActive := false }

/-- Concrete state with a request in flight for code ABCDEFGH12. -/
def inflightPage : PageState :=
  { idlePage with isProcessing := true, lastScannedCode := some (cps "ABCDEFGH12") }

/-- Concrete state after a validation attempt for ABCDEFGH12 ended in a
rejection: error banner up, no cooldown, code still recorded. -/
def errPage : PageState :=
  { idlePage with lastScannedCode := some (cps "ABCDEFGH12"),
                  errorMessage := some msgGenericFail }

/-- Concrete state during the post-success cooldown. -/
def coolPage : PageState :=
  { idlePage with cooldown := true, lastScannedCode := some (cps "ABCDEFGH12") }

/-- A success response carrying a ticket. -/
def okResponse : ApiResponse :=
  { success := true, message := none, error := none, ticket := some sampleTicket }

/-- A rejection whose `error` field is present but empty while `message`
is set — JS `||` skips the empty string. -/
def emptyErrorResponse : ApiResponse :=
  { success := false, message := some "Gate closed", error := some "", ticket := none }

/-- A rejection with a nonempty `error` field. -/
def errRejResponse : ApiResponse :=
  { success := false, message := some "ignored", error := some "Already scanned",
    ticket := none }

/-- A rejection carrying neither `error` nor `message`. -/
def bareRejResponse : ApiResponse :=
  { success := false, message := none, error := none, ticket := none }

/-- C1: the claim says a second validation trigger while a request is in
flight is a no-op, with exactly one `scanTicket` call.  On the code, a
camera decode of a valid code puts a request in flight, and a manual
submission delivered before it settles issues a second `scanTicket`
call: `handleManualSubmit` guards only on code length, never on the
in-flight flag. -/
theorem c1_manual_submit_ignores_inflight :
    (handleScan idlePage (cps "ABCDEFGH12")).2.isSome = true ∧
    (handleScan idlePage (cps "ABCDEFGH12")).1.isProcessing = true ∧
    (handleManualSubmit (handleScan idlePage (cps "ABCDEFGH12")).1
      (cps "ZZZZZZZZ99")).2.isSome = true := by
  decide

/-- C2 counterexample: `"ABC-123456"` normalizes to itself, fails the
`[0-9A-Z]` ten-character format, yet a manual submission of it reaches
the Validation Service, because `handleManualSubmit` checks only that
the cleaned code has length 10. -/
theorem c2_invalid_code_reaches_service :
    validateCode (normalize (cps "ABC-123456")) = false ∧
    (handleManualSubmit idlePage (cps "ABC-123456")).2
      = some ("ev1", cps "ABC-123456") := by
  decide

/-- C2 amended: invalid codes never reach the Validation Service on the
camera path (`handleScan` issues no call when the normalized code fails
`validateCode`), while on the manual path only codes whose normalized
length differs from 10 are blocked. -/
theorem c2_guard_per_path (s : PageState) (raw : CodePoints) :
    (validateCode (normalize raw) = false → (handleScan s raw).2 = none) ∧
    ((normalize raw).length ≠ 10 → (handleManualSubmit s raw).2 = none) := by
  constructor
  · intro h
    unfold handleScan
    split
    · rfl
    · split
      · rfl
      · rfl
  · intro h
    unfold handleManualSubmit
    rw [if_pos h]

/-- C2 amended, witness: a malformed ten-character code is dropped by the
camera path, and a short code is dropped by the manual path. -/
theorem c2_guard_per_path_witness :
    (handleScan idlePage (cps "AB*CDEF+12")).2 = none ∧
    (handleManualSubmit idlePage (cps "SHORT")).2 = none :=
  ⟨(c2_guard_per_path idlePage (cps "AB*CDEF+12")).1 (by decide),
   (c2_guard_per_path idlePage (cps "SHORT")).2 (by decide)⟩

/-- C3 counterexample: start the camera, decode a valid code, let the
request settle with a success ticket; the page is now in the Success
state and the camera capability is still active — contradicting the
claim that the camera is active only in Idle-Scanning and that Success
stops it first.  No code path stops the camera on a validation result. -/
theorem c3_camera_runs_in_success_state :
    (sysSettle
        (sysDecode (sysStartScanning { page := idlePage, cameraActive := false })
            (cps "ABCDEFGH12")).1
        (ScanOutcome.ok
          { success := true, message := none, error := none,
            ticket := some sampleTicket })).page.successTicket = some sampleTicket ∧
    (sysSettle
        (sysDecode (sysStartScanning { page := idlePage, cameraActive := false })
            (cps "ABCDEFGH12")).1
        (ScanOutcome.ok
          { success := true, message := none, error := none,
            ticket := some sampleTicket })).cameraActive = true := by
  decide

/-- C3 amended: the camera capability is started and stopped only by the
explicit camera-lifecycle events (mount with a remembered camera, camera
selection, unmount, camera switch); settling a validation — Success or
Error — and decode delivery never change it.  Suppression is done at
delivery instead: while processing or in cooldown the `disabled` prop
discards decodes, and an inactive camera delivers nothing. -/
theorem c3_camera_lifecycle (sys : SysState) (o : ScanOutcome) (raw : CodePoints) :
    (sysSettle sys o).cameraActive = sys.cameraActive ∧
    (sysDecode sys raw).1.cameraActive = sys.cameraActive ∧
    (sysStartScanning sys).cameraActive = true ∧
    (sysStopScanning sys).cameraActive = false ∧
    (scannerDisabled sys.page = true → sysDecode sys raw = (sys, none)) ∧
    (sys.cameraActive = false → sysDecode sys raw = (sys, none)) := by
  refine ⟨rfl, ?_, rfl, rfl, ?_, ?_⟩
  · unfold sysDecode
    split
    · rfl
    · split
      · rfl
      · rfl
  · intro h
    unfold sysDecode
    split
    · rfl
    · rfl
  · intro h
    unfold sysDecode
    rw [if_pos h]

/-- C3 amended, witness: with a success banner up and the cooldown
running, a settle leaves the camera as is and a decode is discarded. -/
theorem c3_camera_lifecycle_witness :
    (sysSettle successSys ScanOutcome.networkError).cameraActive = successSys.cameraActive ∧
    sysDecode successSys (cps "ABCDEFGH12") = (successSys, none) ∧
    sysDecode cameraOffSys (cps "ABCDEFGH12") = (cameraOffSys, none) :=
  ⟨(c3_camera_lifecycle successSys ScanOutcome.networkError (cps "ABCDEFGH12")).1,
   (c3_camera_lifecycle successSys ScanOutcome.networkError
      (cps "ABCDEFGH12")).2.2.2.2.1 (by decide),
   (c3_camera_lifecycle cameraOffSys ScanOutcome.networkError
      (cps "ABCDEFGH12")).2.2.2.2.2 (by decide)⟩

/-- C4: a transport failure settles into exactly
Error("Network error validating ticket.") with the in-flight flag
cleared; the flag is cleared on every settle path; and from the settled
state a fresh valid camera scan is accepted (a `scanTicket` call is
issued), showing the in-flight guard no longer blocks. -/
theorem c4_network_error_recovery (s : PageState) (raw : CodePoints) (eid : String) :
    settleValidation s ScanOutcome.networkError
      = { s with errorMessage := some msgNetwork, isProcessing := false } ∧
    (∀ o : ScanOutcome, (settleValidation s o).isProcessing = false) ∧
    (s.eventId = some eid → s.cooldown = false →
      s.lastScannedCode ≠ some (normalize raw) → validateCode (normalize raw) = true →
      (handleScan (settleValidation s ScanOutcome.networkError) raw).2
        = some (eid, normalize raw)) := by
  refine ⟨rfl, ?_, ?_⟩
  · intro o
    cases o with
    | ok r =>
        simp only [settleValidation]
        split
        · rfl
        · rfl
    | networkError => rfl
  · intro h1 h2 h3 h4
    unfold handleScan settleValidation
    rw [if_neg, if_neg, if_neg]
    · unfold startValidation
      simp only [h1]
    · rw [h4]
      simp
    · simpa using h3
    · simp [h2]

/-- C4 witness: from a concrete in-flight state, the network-error settle
produces the exact error state with the flag down, and an immediate
fresh scan is accepted. -/
theorem c4_network_error_recovery_witness :
    settleValidation inflightPage ScanOutcome.networkError
      = { inflightPage with errorMessage := some msgNetwork, isProcessing := false } ∧
    (settleValidation inflightPage ScanOutcome.networkError).isProcessing = false ∧
    (handleScan (settleValidation inflightPage ScanOutcome.networkError)
        (cps "ZZ99ZZ99ZZ")).2
      = some ("ev1", normalize (cps "ZZ99ZZ99ZZ")) :=
  ⟨(c4_network_error_recovery inflightPage (cps "ZZ99ZZ99ZZ") "ev1").1,
   (c4_network_error_recovery inflightPage (cps "ZZ99ZZ99ZZ") "ev1").2.1
      ScanOutcome.networkError,
   (c4_network_error_recovery inflightPage (cps "ZZ99ZZ99ZZ") "ev1").2.2
      (by decide) (by decide) (by decide) (by decide)⟩

/-- C5 counterexample: a response whose `error` field is present but holds
the empty string.  The claim says the displayed reason is the `error`
field whenever it is present; the `error || message || default` chain
skips the empty string and shows the `message` instead. -/
theorem c5_empty_error_field_skipped :
    emptyErrorResponse.error = some "" ∧
    (settleValidation idlePage (ScanOutcome.ok emptyErrorResponse)).errorMessage
      = some "Gate closed" := by
  constructor
  · rfl
  · rfl

/-- C5 amended: a response with `success` true and a ticket present yields
the Success state (with the cooldown started); `success` false or a
missing ticket yields Error(reason), where reason is the `error` field
if present and nonempty, else the `message` field if present and
nonempty, else the generic "Ticket validation failed." — absent and
empty strings alike fall through, per JS truthiness. -/
theorem c5_response_mapping (s : PageState) (r : ApiResponse) :
    (∀ t : Ticket, r.success = true → r.ticket = some t →
      settleValidation s (ScanOutcome.ok r)
        = { s with successTicket := some t, cooldown := true, isProcessing := false }) ∧
    (r.success = false ∨ r.ticket = none →
      settleValidation s (ScanOutcome.ok r)
        = { s with errorMessage := some (failureReason r), isProcessing := false }) ∧
    (∀ e, r.error = some e → e ≠ "" → failureReason r = e) ∧
    (∀ m, r.error = none ∨ r.error = some "" → r.message = some m → m ≠ "" →
      failureReason r = m) ∧
    (r.error = none ∨ r.error = some "" → r.message = none ∨ r.message = some "" →
      failureReason r = msgGenericFail) := by
  refine ⟨?_, ?_, ?_, ?_, ?_⟩
  · intro t hs ht
    simp [settleValidation, startCooldown, hs, ht]
  · intro hor
    have hcond : (r.success && r.ticket.isSome) = false := by
      rcases hor with h | h <;> simp [h]
    simp [settleValidation, hcond]
  · intro e he hne
    simp [failureReason, jsOrStr, he, hne]
  · intro m her hm hne
    rcases her with h | h <;> simp [failureReason, jsOrStr, h, hm, hne]
  · intro her hmer
    rcases her with h | h <;> rcases hmer with h2 | h2 <;>
      simp [failureReason, jsOrStr, h, h2, msgGenericFail]

/-- C5 amended, witness: the four reason cases and the success case at
concrete responses. -/
theorem c5_response_mapping_witness :
    settleValidation idlePage (ScanOutcome.ok okResponse)
      = { idlePage with successTicket := some sampleTicket, cooldown := true,
                        isProcessing := false } ∧
    settleValidation idlePage (ScanOutcome.ok errRejResponse)
      = { idlePage with errorMessage := some (failureReason errRejResponse),
                        isProcessing := false } ∧
    failureReason errRejResponse = "Already scanned" ∧
    failureReason emptyErrorResponse = "Gate closed" ∧
    failureReason bareRejResponse = msgGenericFail :=
  ⟨(c5_response_mapping idlePage okResponse).1 sampleTicket rfl rfl,
   (c5_response_mapping idlePage errRejResponse).2.1 (Or.inl rfl),
   (c5_response_mapping idlePage errRejResponse).2.2.1 "Already scanned" rfl
      (by decide),
   (c5_response_mapping idlePage emptyErrorResponse).2.2.2.1 "Gate closed"
      (Or.inr rfl) rfl (by decide),
   (c5_response_mapping idlePage bareRejResponse).2.2.2.2 (Or.inl rfl) (Or.inl rfl)⟩

/-- C6: a camera decode whose normalized form fails the code format never
issues a Validation Service call, and — when it is actually processed,
i.e. not dropped by the in-flight, cooldown, or repeat-code guards —
it sets exactly the Error("Invalid code format. Must be 10 characters.")
banner. -/
theorem c6_malformed_decode (s : PageState) (raw : CodePoints) :
    validateCode (normalize raw) = false →
    (handleScan s raw).2 = none ∧
    (s.isProcessing = false → s.cooldown = false →
      s.lastScannedCode ≠ some (normalize raw) →
      (handleScan s raw).1 = { s with errorMessage := some msgInvalidFormat }) := by
  intro h
  constructor
  · unfold handleScan
    split
    · rfl
    · split
      · rfl
      · rfl
  · intro h1 h2 h3
    unfold handleScan
    rw [if_neg (by simp [h1, h2]), if_neg h3, if_pos h]

/-- C6 witness: a short decoded string is rejected locally with the format
error and no service call. -/
theorem c6_malformed_decode_witness :
    (handleScan idlePage (cps "nope")).2 = none ∧
    (handleScan idlePage (cps "nope")).1
      = { idlePage with errorMessage := some msgInvalidFormat } :=
  ⟨(c6_malformed_decode idlePage (cps "nope") (by decide)).1,
   (c6_malformed_decode idlePage (cps "nope") (by decide)).2
      (by decide) (by decide) (by decide)⟩

/-- C9: a failed validation settles without starting the cooldown and with
the attempted code still recorded as last scanned (the record is set by
every dispatched validation and cleared only by `cooldownExpire`); in
that state a camera decode normalizing to the same code is a strict
no-op — the state is unchanged and no call is issued — while a manual
submission of the same code still reaches the service. -/
theorem c9_repeat_after_error (s : PageState) (c raw : CodePoints) (eid : String)
    (r : ApiResponse) :
    ((r.success && r.ticket.isSome) = false →
      (settleValidation s (ScanOutcome.ok r)).lastScannedCode = s.lastScannedCode ∧
      (settleValidation s (ScanOutcome.ok r)).cooldown = s.cooldown) ∧
    (s.eventId = some eid → (startValidation s c).1.lastScannedCode = some c) ∧
    (cooldownExpire s).lastScannedCode = none ∧
    (s.isProcessing = false → s.cooldown = false → s.lastScannedCode = some c →
      normalize raw = c → handleScan s raw = (s, none)) ∧
    (s.eventId = some eid → normalize raw = c → c.length = 10 →
      (handleManualSubmit s raw).2 = some (eid, c)) := by
  refine ⟨?_, ?_, rfl, ?_, ?_⟩
  · intro h
    exact ⟨by simp [settleValidation, h], by simp [settleValidation, h]⟩
  · intro h
    simp [startValidation, h]
  · intro h1 h2 h3 h4
    unfold handleScan
    rw [if_neg (by simp [h1, h2]), if_pos (by rw [h4]; exact h3)]
  · intro h1 h2 h3
    unfold handleManualSubmit
    rw [if_neg (by simp [h2, h3])]
    rw [h2]
    simp [startValidation, h1]

/-- C9 witness: after a rejected attempt for ABCDEFGH12, a decode of
" abcdefgh12 " (same code after normalization) changes nothing and calls
nothing, while the manual submission of it is dispatched. -/
theorem c9_repeat_after_error_witness :
    ((settleValidation errPage (ScanOutcome.ok bareRejResponse)).lastScannedCode
        = errPage.lastScannedCode ∧
      (settleValidation errPage (ScanOutcome.ok bareRejResponse)).cooldown
        = errPage.cooldown) ∧
    (startValidation errPage (cps "ABCDEFGH12")).1.lastScannedCode
      = some (cps "ABCDEFGH12") ∧
    (cooldownExpire errPage).lastScannedCode = none ∧
    handleScan errPage (cps " abcdefgh12 ") = (errPage, none) ∧
    (handleManualSubmit errPage (cps " abcdefgh12 ")).2
      = some ("ev1", cps "ABCDEFGH12") :=
  ⟨(c9_repeat_after_error errPage (cps "ABCDEFGH12") (cps " abcdefgh12 ") "ev1"
      bareRejResponse).1 (by decide),
   (c9_repeat_after_error errPage (cps "ABCDEFGH12") (cps " abcdefgh12 ") "ev1"
      bareRejResponse).2.1 (by decide),
   (c9_repeat_after_error errPage (cps "ABCDEFGH12") (cps " abcdefgh12 ") "ev1"
      bareRejResponse).2.2.1,
   (c9_repeat_after_error errPage (cps "ABCDEFGH12") (cps " abcdefgh12 ") "ev1"
      bareRejResponse).2.2.2.1 (by decide) (by decide) (by decide) (by decide),
   (c9_repeat_after_error errPage (cps "ABCDEFGH12") (cps " abcdefgh12 ") "ev1"
      bareRejResponse).2.2.2.2 (by decide) (by decide) (by decide)⟩

/-- C10: while the cooldown flag is up, every camera decode is a strict
no-op (state unchanged, no call, whatever the code), while a manual
submission of a ten-character code is dispatched regardless of the
cooldown; the cooldown timer firing clears both the flag and the
last-scanned-code record; and a success settle raises the flag. -/
theorem c10_cooldown_blocks_camera_only (s : PageState) (raw : CodePoints)
    (eid : String) (r : ApiResponse) (t : Ticket) :
    (s.cooldown = true → handleScan s raw = (s, none)) ∧
    (s.cooldown = true → s.eventId = some eid → (normalize raw).length = 10 →
      (handleManualSubmit s raw).2 = some (eid, normalize raw)) ∧
    cooldownExpire s = { s with cooldown := false, lastScannedCode := none } ∧
    (r.success = true → r.ticket = some t →
      (settleValidation s (ScanOutcome.ok r)).cooldown = true) := by
  refine ⟨?_, ?_, rfl, ?_⟩
  · intro h
    unfold handleScan
    rw [if_pos (by simp [h])]
  · intro h h1 h2
    unfold handleManualSubmit
    rw [if_neg (by simp [h2])]
    simp [startValidation, h1]
  · intro hs ht
    simp [settleValidation, startCooldown, hs, ht]

/-- C10 witness: during a concrete cooldown, a fresh valid decode is
dropped, the same code typed manually is dispatched, expiry clears both
fields, and a success settle raises the flag. -/
theorem c10_cooldown_blocks_camera_only_witness :
    handleScan coolPage (cps "ZZ99ZZ99ZZ") = (coolPage, none) ∧
    (handleManualSubmit coolPage (cps "ZZ99ZZ99ZZ")).2
      = some ("ev1", normalize (cps "ZZ99ZZ99ZZ")) ∧
    cooldownExpire coolPage = { coolPage with cooldown := false, lastScannedCode := none } ∧
    (settleValidation coolPage (ScanOutcome.ok okResponse)).cooldown = true :=
  ⟨(c10_cooldown_blocks_camera_only coolPage (cps "ZZ99ZZ99ZZ") "ev1" okResponse
      sampleTicket).1 (by decide),
   (c10_cooldown_blocks_camera_only coolPage (cps "ZZ99ZZ99ZZ") "ev1" okResponse
      sampleTicket).2.1 (by decide) (by decide) (by decide),
   (c10_cooldown_blocks_camera_only coolPage (cps "ZZ99ZZ99ZZ") "ev1" okResponse
      sampleTicket).2.2.1,
   (c10_cooldown_blocks_camera_only coolPage (cps "ZZ99ZZ99ZZ") "ev1" okResponse
      sampleTicket).2.2.2 (by decide) (by decide)⟩

theorem isWs_false_of_between (n : Nat) (h1 : 33 ≤ n) (h2 : n ≤ 159) :
    isWs n = false := by
  rw [isWs, decide_eq_false_iff_not]
  simp only [wsCodes, List.mem_cons, List.not_mem_nil, or_false]
  omega

theorem isWs_upCp (n : Nat) : isWs (upCp n) = isWs n := by
  unfold upCp
  split
  · rename_i h
    rw [isWs_false_of_between (n - 32) (by omega) (by omega),
        isWs_false_of_between n (by omega) (by omega)]
  · rfl

theorem upCp_upCp (n : Nat) : upCp (upCp n) = upCp n := by
  simp only [upCp]
  by_cases h : 97 ≤ n ∧ n ≤ 122
  · rw [if_pos h, if_neg (by omega)]
  · rw [if_neg h, if_neg h]

theorem alnumCI_upCp (n : Nat) : isAlnumCI (upCp n) = isUpAlnum (upCp n) := by
  by_cases h : 97 ≤ n ∧ n ≤ 122
  · have hu : upCp n = n - 32 := by simp [upCp, h]
    rw [hu]
    simp only [isAlnumCI, isUpAlnum]
    rw [decide_eq_decide]
    omega
  · have hu : upCp n = n := by simp [upCp, h]
    rw [hu]
    simp only [isAlnumCI, isUpAlnum]
    rw [decide_eq_decide]
    omega

theorem length_dropWhile_le_nat (p : Nat → Bool) (l : List Nat) :
    (List.dropWhile p l).length ≤ l.length := by
  induction l with
  | nil => exact Nat.le_refl 0
  | cons a t ih =>
    rw [List.dropWhile_cons]
    split
    · exact Nat.le_succ_of_le ih
    · exact Nat.le_refl _

theorem not_head_of_dropWhile_fixed (p : Nat → Bool) (a : Nat) (t : List Nat)
    (h : List.dropWhile p (a :: t) = a :: t) : p a = false := by
  by_cases hp : p a = true
  · exfalso
    rw [List.dropWhile_cons, if_pos hp] at h
    have hle := length_dropWhile_le_nat p t
    rw [h] at hle
    simp only [List.length_cons] at hle
    omega
  · exact Bool.eq_false_iff.mpr hp

theorem dropWhile_fixed_of_front (p : Nat → Bool) {m k : List Nat}
    (hk : List.dropWhile p k = k) (hm : m <+: k) : List.dropWhile p m = m := by
  cases m with
  | nil => rfl
  | cons a t =>
    rcases hm with ⟨r, hr⟩
    rw [List.cons_append] at hr
    subst hr
    have hpa := not_head_of_dropWhile_fixed p a (t ++ r) hk
    rw [List.dropWhile_cons, if_neg (by simp [hpa])]

theorem dropWhile_isWs_map_upCp (l : List Nat) :
    List.dropWhile isWs (l.map upCp) = (List.dropWhile isWs l).map upCp := by
  induction l with
  | nil => rfl
  | cons a t ih =>
    by_cases h : isWs a = true
    · simp [List.dropWhile_cons, isWs_upCp, h, ih]
    · simp [List.dropWhile_cons, isWs_upCp, h]

theorem rdropWhile_isWs_map_upCp (l : List Nat) :
    (l.map upCp).rdropWhile isWs = (l.rdropWhile isWs).map upCp := by
  unfold List.rdropWhile
  rw [← List.map_reverse, dropWhile_isWs_map_upCp, List.map_reverse]

theorem map_upCp_idem (l : List Nat) : (l.map upCp).map upCp = l.map upCp := by
  induction l with
  | nil => rfl
  | cons a t ih => simp [upCp_upCp, ih]

theorem trimCp_map_upCp (l : List Nat) : trimCp (l.map upCp) = (trimCp l).map upCp := by
  unfold trimCp
  rw [dropWhile_isWs_map_upCp, rdropWhile_isWs_map_upCp]

theorem trimCp_idem (l : List Nat) : trimCp (trimCp l) = trimCp l := by
  unfold trimCp
  rw [dropWhile_fixed_of_front isWs (List.dropWhile_idempotent isWs l)
        ( List.rdropWhile_prefix isWs (List.dropWhile isWs l))]
  exact List.rdropWhile_idempotent isWs (List.dropWhile isWs l)

theorem validateCode_eq_specFormat_of_map (t : List Nat) :
    validateCode (t.map upCp) = specFormat (t.map upCp) := by
  unfold validateCode specFormat alnumTest
  have hall : (t.map upCp).all isAlnumCI = (t.map upCp).all isUpAlnum := by
    induction t with
    | nil => rfl
    | cons a u ih => simp only [List.map_cons, List.all_cons, alnumCI_upCp, ih]
  rw [hall]
  cases t with
  | nil => rfl
  | cons a u => simp only [List.map_cons, List.isEmpty_cons, Bool.not_false, Bool.true_and]

/-- C7: on every normalized string, `validateCode` of the code (length 10
and case-insensitive alphanumeric) agrees with the ScanCode format of
the spec, a full match of ten characters from the class 0-9 A-Z; the
three example inputs behave as the claim states. -/
theorem c7_format_validation :
    (∀ raw : CodePoints, validateCode (normalize raw) = specFormat (normalize raw)) ∧
    validateCode (normalize (cps "abc1234567")) = true ∧
    validateCode (normalize (cps "abc123456")) = false ∧
    validateCode (normalize (cps "abc-123456")) = false := by
  refine ⟨?_, by decide, by decide, by decide⟩
  intro raw
  unfold normalize
  exact validateCode_eq_specFormat_of_map (trimCp raw)

/-- C8: normalization — trim, then uppercase — is idempotent: normalizing
an already-normalized string changes nothing. -/
theorem c8_normalize_idempotent (s : CodePoints) :
    normalize (normalize s) = normalize s := by
  unfold normalize
  rw [trimCp_map_upCp, trimCp_idem, map_upCp_idem]

end HybridApp
